import Mathlib

/-!
Verification development for the terramate-mcp-server command layer.

The definitions below are a shallow embedding of the Python sources:

* `shlex.split` / `shlex.quote` model the Python standard-library functions
  (POSIX mode, as used by `terramate_mcp/utils/commands.py` and
  `terramate_mcp/tools/workflows.py`);
* `pyReplace`, `pyTitle`, `path_name` model Python's `str.replace`,
  `str.title` (for ASCII text) and `pathlib.Path(...).name` (POSIX paths);
* `run_command` / `format_command_result` embed
  `terramate_mcp/utils/commands.py`; the behaviour of the spawned OS process
  is abstracted into a `ProcOutcome` value (what the child did);
* `terramate_trigger_workflow` / `terramate_stack_operations` embed
  `terramate_mcp/tools/workflows.py`; the awaited `run_command` calls are
  abstracted into an executor function, and alongside the transcript the
  embedding also returns the list of command strings handed to the executor,
  in order.  The Python function returns `"\n".join(results)` possibly with
  a final `"\n<marker>"` appended, which is exactly
  `String.intercalate "\n"` of the transcript list returned here.
-/

/-- Python `str.replace(old, new)`: replace all non-overlapping occurrences,
left to right.  `fuel` is the length of the remaining text; a nonempty
pattern consumes at least one character per step, so the fuel never runs out
for the uses in this file (the pattern is never empty). -/
def pyReplaceAux (pat rep : List Char) : Nat → List Char → List Char
  | _, [] => []
  | 0, l => l
  | fuel + 1, c :: cs =>
    if pat.isPrefixOf (c :: cs) then
      rep ++ pyReplaceAux pat rep fuel (List.drop pat.length (c :: cs))
    else
      c :: pyReplaceAux pat rep fuel cs

/-- Python `s.replace(pat, rep)` on strings. -/
def pyReplace (s pat rep : String) : String :=
  ⟨pyReplaceAux pat.data rep.data s.data.length s.data⟩

/-- Python `str.title()` restricted to ASCII: a letter that follows a
non-letter is uppercased, a letter that follows a letter is lowercased,
all other characters pass through. -/
def pyTitleAux : Bool → List Char → List Char
  | _, [] => []
  | prevCased, c :: cs =>
    if c.isAlpha then
      (if prevCased then c.toLower else c.toUpper) :: pyTitleAux true cs
    else
      c :: pyTitleAux false cs

/-- Python `s.title()` (ASCII model). -/
def pyTitle (s : String) : String :=
  ⟨pyTitleAux false s.data⟩

/-- Python `s.startswith(pre)`. -/
def pyStartsWith (s pre : String) : Bool :=
  pre.data.isPrefixOf s.data

/-- Split a character list on the slash character. -/
def splitSlashAux (acc : List Char) : List Char → List (List Char)
  | [] => [acc.reverse]
  | c :: cs =>
    if c == '/' then acc.reverse :: splitSlashAux [] cs
    else splitSlashAux (c :: acc) cs

/-- Python `pathlib.Path(p).name` for a POSIX path: the final path component,
with empty and `.` components dropped; `""` when there is none. -/
def path_name (p : String) : String :=
  let segs := (splitSlashAux [] p.data).filter (fun s => !(s == []) && !(s == ['.']))
  match segs.getLast? with
  | some s => ⟨s⟩
  | none => ""

/-- Python truthiness of an `Optional[str]`: `None` and `""` are falsy. -/
def truthy : Option String → Bool
  | none => false
  | some s => !(s == "")

namespace shlex

/-- Characters Python's `shlex` treats as token-separating whitespace. -/
def isWs (c : Char) : Bool :=
  c == ' ' || c == '\t' || c == '\r' || c == '\n'

/-- The states of the `shlex` POSIX tokenizer: between tokens, inside a
plain word, inside single/double quotes, and after a backslash (from a
word or from inside double quotes). -/
inductive SplitState where
  | ws
  | word
  | inSingle
  | inDouble
  | escWord
  | escDouble
deriving DecidableEq

/-- The pending token, as the list of tokens it contributes when emitted. -/
def tokList : Option String → List String
  | none => []
  | some t => [t]

/-- The `shlex` POSIX tokenizer loop (`shlex.split` semantics): whitespace
separates tokens; single quotes protect everything; double quotes protect
everything except `\` followed by `\` or `"`; a bare backslash escapes the
next character; an unclosed quote or a trailing backslash is an error with
the message Python's `shlex` raises. -/
def splitAux : SplitState → Option String → List String → List Char →
    Except String (List String)
  | .ws, tok, acc, [] => .ok (acc ++ tokList tok)
  | .word, tok, acc, [] => .ok (acc ++ tokList tok)
  | .inSingle, _, _, [] => .error "No closing quotation"
  | .inDouble, _, _, [] => .error "No closing quotation"
  | .escWord, _, _, [] => .error "No escaped character"
  | .escDouble, _, _, [] => .error "No escaped character"
  | .ws, tok, acc, c :: cs =>
    if isWs c then splitAux .ws none (acc ++ tokList tok) cs
    else if c == '\'' then splitAux .inSingle (some (tok.getD "")) acc cs
    else if c == '"' then splitAux .inDouble (some (tok.getD "")) acc cs
    else if c == '\\' then splitAux .escWord tok acc cs
    else splitAux .word (some ((tok.getD "").push c)) acc cs
  | .word, tok, acc, c :: cs =>
    if isWs c then splitAux .ws none (acc ++ tokList tok) cs
    else if c == '\'' then splitAux .inSingle (some (tok.getD "")) acc cs
    else if c == '"' then splitAux .inDouble (some (tok.getD "")) acc cs
    else if c == '\\' then splitAux .escWord tok acc cs
    else splitAux .word (some ((tok.getD "").push c)) acc cs
  | .inSingle, tok, acc, c :: cs =>
    if c == '\'' then splitAux .word (some (tok.getD "")) acc cs
    else splitAux .inSingle (some ((tok.getD "").push c)) acc cs
  | .inDouble, tok, acc, c :: cs =>
    if c == '"' then splitAux .word (some (tok.getD "")) acc cs
    else if c == '\\' then splitAux .escDouble tok acc cs
    else splitAux .inDouble (some ((tok.getD "").push c)) acc cs
  | .escWord, tok, acc, c :: cs =>
    splitAux .word (some ((tok.getD "").push c)) acc cs
  | .escDouble, tok, acc, c :: cs =>
    if c == '\\' || c == '"' then splitAux .inDouble (some ((tok.getD "").push c)) acc cs
    else splitAux .inDouble (some (((tok.getD "").push '\\').push c)) acc cs

/-- Python `shlex.split(s)` (POSIX mode): the token list, or a `ValueError`
message on an unclosed quote or a trailing backslash. -/
def split (s : String) : Except String (List String) :=
  splitAux .ws none [] s.data

/-- The characters Python's `shlex.quote` considers safe: ASCII letters and
digits, underscore, `@ % + = : , .`, the slash and the hyphen. -/
def isSafeChar (c : Char) : Bool :=
  c.isAlphanum || c == '_' || c == '@' || c == '%' || c == '+' || c == '='
    || c == ':' || c == ',' || c == '.' || c == '/' || c == '-'

/-- Python `shlex.quote(s)`: `''` for the empty string, `s` unchanged when
every character is safe, otherwise `s` wrapped in single quotes with each
embedded single quote rendered as `'"'"'`. -/
def quote (s : String) : String :=
  if s == "" then "''"
  else if s.data.all isSafeChar then s
  else "'" ++ pyReplace s "'" "'\"'\"'" ++ "'"

end shlex

/-- The uniform result value `run_command` builds
(`terramate_mcp/utils/commands.py`): the dict with keys `success`,
`return_code`, `stdout`, `stderr`, `command`, `cwd`, and the optional
`error` key. -/
structure CommandResult where
  success : Bool
  return_code : Int
  stdout : String
  stderr : String
  command : String
  cwd : Option String
  error : Option String
deriving DecidableEq

/-- What the spawned OS child process did, abstracting
`asyncio.create_subprocess_exec` + `communicate`: it completed with an exit
code and decoded output, it ran past the timeout, or spawning/communication
raised (with the exception's message). -/
inductive ProcOutcome where
  | completed (return_code : Int) (stdout stderr : String)
  | timedOut
  | spawnError (msg : String)
deriving DecidableEq

/-- The `except`-branch dict of `run_command`: `success=False`,
`return_code=-1`, empty stdout, the message as both stderr and `error`. -/
def errorResult (command : String) (cwd : Option String) (msg : String) : CommandResult :=
  { success := false, return_code := -1, stdout := "", stderr := msg,
    command := command, cwd := cwd, error := some msg }

/-- The emptiness check of `run_command`:
`if not cmd_args or not cmd_args[0]`. -/
def invalid_args : List String → Bool
  | [] => true
  | a :: _ => a == ""

/-- `run_command` of `terramate_mcp/utils/commands.py`, with the process
behaviour abstracted as `outcome`.  The second component records whether the
timeout branch killed the child (`process.kill()`).  The Python function
never lets an exception escape: every path returns a result dict, which is
why this embedding is a total function into `CommandResult × Bool`. -/
def run_command_events (outcome : ProcOutcome) (command : String)
    (cwd : Option String) (timeout : Nat) : CommandResult × Bool :=
  match shlex.split command with
  | .error e => (errorResult command cwd e, false)
  | .ok args =>
    if invalid_args args then
      (errorResult command cwd "Invalid command", false)
    else
      match outcome with
      | .completed rc out err =>
        ({ success := rc == 0, return_code := rc, stdout := out, stderr := err,
           command := command, cwd := cwd, error := none }, false)
      | .timedOut =>
        (errorResult command cwd
          ("Command timed out after " ++ toString timeout ++ " seconds"), true)
      | .spawnError msg =>
        (errorResult command cwd msg, false)

/-- The `CommandResult` returned to `run_command`'s caller. -/
def run_command (outcome : ProcOutcome) (command : String)
    (cwd : Option String) (timeout : Nat) : CommandResult :=
  (run_command_events outcome command cwd timeout).1

/-- The command strings `run_command` rejects before any process is spawned:
an unparsable command (a `shlex` `ValueError`), no tokens at all, or an
empty first token. -/
def invalid_command_input (command : String) : Bool :=
  match shlex.split command with
  | .error _ => true
  | .ok args => invalid_args args

/-- `format_command_result` of `terramate_mcp/utils/commands.py`.  The
`result.get('cwd', 'current')` in the source never falls back to
`'current'` for results built by `run_command` (the key is always present);
a `None` value renders as the text `None`. -/
def format_command_result (result : CommandResult) : String :=
  let emoji := if result.success then "✅" else "❌"
  let output := emoji ++ " Command: " ++ result.command
    ++ "\nReturn Code: " ++ toString result.return_code
    ++ "\nWorking Directory: " ++ (match result.cwd with | some c => c | none => "None")
    ++ "\n\nSTDOUT:\n"
    ++ (if result.stdout == "" then "(no output)" else result.stdout) ++ "\n"
  let output := if result.stderr == "" then output
    else output ++ "\nSTDERR:\n" ++ result.stderr
  match result.error with
  | some e => output ++ "\nError: " ++ e
  | none => output

/-- The caller-supplied arguments of `terramate_trigger_workflow`
(`terramate_mcp/tools/workflows.py`), with the Python defaults. -/
structure TriggerArgs where
  stack_path : String
  working_directory : Option String := none
  status : Option String := none
  recursive : Bool := false
  ignore_change : Bool := false
  commit_message : Option String := none
  create_pr : Bool := true
  pr_title : Option String := none

/-- Step 1 of the workflow: the `terramate trigger` command string built at
lines 46-56 of `workflows.py`.  A truthy `status` takes the
`--status={status}` branch with the raw status text; otherwise the
`shlex.quote`d stack path is appended. -/
def trigger_cmd (stack_path : String) (status : Option String)
    (recursive ignore_change : Bool) : String :=
  let cmd := "terramate trigger"
  let cmd := if truthy status then cmd ++ " --status=" ++ status.getD ""
    else cmd ++ " " ++ shlex.quote stack_path
  let cmd := if recursive then cmd ++ " --recursive" else cmd
  if ignore_change then cmd ++ " --ignore-change" else cmd

/-- Step 4 of the workflow: the commit message (lines 84-89 of
`workflows.py`).  A falsy caller message (`None` or `""`) is replaced by the
derived message. -/
def commit_message_of (commit_message status : Option String)
    (stack_path : String) : String :=
  if truthy commit_message then commit_message.getD ""
  else if truthy status then "chore: trigger stacks with status " ++ status.getD ""
  else "chore: trigger stack "
    ++ (if stack_path == "" then "stack" else path_name stack_path)

/-- The PR title used at lines 124-125 of `workflows.py`: a falsy caller
title is replaced by `commit_message.replace("chore: ", "").title()`. -/
def pr_title_of (pr_title : Option String) (commit_message : String) : String :=
  if truthy pr_title then pr_title.getD ""
  else pyTitle (pyReplace commit_message "chore: " "")

/-- The PR body built in the f-string at line 127 of `workflows.py`.  The
source writes `\\n` inside the f-string, so the body holds the two-character
sequences backslash-n, not newlines. -/
def pr_body_of (cmd : String) : String :=
  "Automated Terramate stack trigger.\\n\\nTrigger command: " ++ cmd

/-- The `gh pr create` command of line 127 of `workflows.py`: title and body
are both passed through `shlex.quote`. -/
def pr_cmd_of (title body : String) : String :=
  "gh pr create --draft --title " ++ shlex.quote title ++ " --body " ++ shlex.quote body

/-- `terramate_trigger_workflow` of `terramate_mcp/tools/workflows.py`.

`exec i c` abstracts the awaited `run_command(c, cwd=working_directory)` of
the `i`-th executor call of this invocation (the default 60-second timeout
is used by every call); `branch_suffix` abstracts `uuid.uuid4().hex[:8]`.

The result is the transcript entry list (the Python function returns
`String.intercalate "\n"` of it) paired with the list of command strings
handed to the executor, in order.  The `except` branch at the bottom of the
Python function is unreachable in this embedding because `run_command`
never raises. -/
def terramate_trigger_workflow (exec : Nat → String → CommandResult)
    (a : TriggerArgs) (branch_suffix : String) : List String × List String :=
  let cmd := trigger_cmd a.stack_path a.status a.recursive a.ignore_change
  let results := ["🎯 Step 1: Triggering Terramate stack(s)"]
  let trigger_result := exec 0 cmd
  let results := results ++ [format_command_result trigger_result]
  if !trigger_result.success then
    (results ++ ["❌ Trigger failed, stopping workflow."], [cmd])
  else
    let results := results ++ ["\n🔍 Step 2: Checking git status"]
    let git_status_result := exec 1 "git status --porcelain"
    let results := results ++ [format_command_result git_status_result]
    if !git_status_result.success then
      (results ++ ["❌ Git status check failed."], [cmd, "git status --porcelain"])
    else
      let results := results ++ ["\n📁 Step 3: Adding trigger files to git"]
      let git_add_result := exec 2 "git add ."
      let results := results ++ [format_command_result git_add_result]
      if !git_add_result.success then
        (results ++ ["❌ Git add failed."], [cmd, "git status --porcelain", "git add ."])
      else
        let commit_message := commit_message_of a.commit_message a.status a.stack_path
        let results := results
          ++ ["\n💾 Step 4: Committing changes with message: '" ++ commit_message ++ "'"]
        let commit_cmd := "git commit -m " ++ shlex.quote commit_message
        let commit_result := exec 3 commit_cmd
        let results := results ++ [format_command_result commit_result]
        if !commit_result.success then
          (results ++ ["❌ Git commit failed."],
           [cmd, "git status --porcelain", "git add .", commit_cmd])
        else
          if a.create_pr then
            let results := results ++ ["\n🚀 Step 5: Creating draft pull request"]
            let branch_name := "terramate-trigger-" ++ branch_suffix
            let branch_cmd := "git checkout -b " ++ branch_name
            let branch_result := exec 4 branch_cmd
            let results := results ++ [format_command_result branch_result]
            if branch_result.success then
              let push_cmd := "git push -u origin " ++ branch_name
              let push_result := exec 5 push_cmd
              let results := results ++ [format_command_result push_result]
              if push_result.success then
                let title := pr_title_of a.pr_title commit_message
                let prc := pr_cmd_of title (pr_body_of cmd)
                let pr_result := exec 6 prc
                let results :=
                  if pr_result.success then
                    results ++ [format_command_result pr_result,
                      "\n✅ Draft pull request created successfully!"]
                  else
                    results ++ [format_command_result pr_result,
                      "\n⚠️ PR creation failed. You may need to install GitHub CLI or check permissions."]
                (results ++ ["\n🎉 Terramate trigger workflow completed successfully!"],
                 [cmd, "git status --porcelain", "git add .", commit_cmd,
                  branch_cmd, push_cmd, prc])
              else
                (results ++ ["\n❌ Failed to push branch for PR creation.",
                   "\n🎉 Terramate trigger workflow completed successfully!"],
                 [cmd, "git status --porcelain", "git add .", commit_cmd,
                  branch_cmd, push_cmd])
            else
              (results ++ ["\n❌ Failed to create branch for PR.",
                 "\n🎉 Terramate trigger workflow completed successfully!"],
               [cmd, "git status --porcelain", "git add .", commit_cmd, branch_cmd])
          else
            (results ++ ["\n🎉 Terramate trigger workflow completed successfully!"],
             [cmd, "git status --porcelain", "git add .", commit_cmd])

/-- The full sequence of command strings the workflow can hand to the
executor for the arguments `a` and the branch suffix: every invocation
issues an initial segment of this list. -/
def workflow_call_sequence (a : TriggerArgs) (branch_suffix : String) : List String :=
  let cmd := trigger_cmd a.stack_path a.status a.recursive a.ignore_change
  let msg := commit_message_of a.commit_message a.status a.stack_path
  [cmd,
   "git status --porcelain",
   "git add .",
   "git commit -m " ++ shlex.quote msg,
   "git checkout -b " ++ ("terramate-trigger-" ++ branch_suffix),
   "git push -u origin " ++ ("terramate-trigger-" ++ branch_suffix),
   pr_cmd_of (pr_title_of a.pr_title msg) (pr_body_of cmd)]

/-- The closed operation set of `terramate_stack_operations` (the Python
`Literal` type). -/
inductive StackOp where
  | list | list_changed | run | run_changed | generate | fmt
deriving DecidableEq

/-- The operation's name string (the Python string value, used by the
`operation.startswith("run")` timeout choice). -/
def StackOp.name : StackOp → String
  | .list => "list"
  | .list_changed => "list_changed"
  | .run => "run"
  | .run_changed => "run_changed"
  | .generate => "generate"
  | .fmt => "fmt"

/-- `terramate_stack_operations` of `terramate_mcp/tools/workflows.py`.

`exec c t` abstracts the awaited `run_command(c, cwd=working_directory,
timeout=t)`.  The first component is the returned formatted string, or the
message of the `ValueError` the Python function raises; the second is the
list of command strings handed to the executor (empty when the function
raises before any call). -/
def terramate_stack_operations (exec : String → Nat → CommandResult)
    (operation : StackOp) (working_directory : Option String)
    (command : Option String) (changed : Bool) (parallel : Int)
    (check : Bool) : Except String String × List String :=
  let build : Except String String :=
    match operation with
    | .list =>
      let cmd := "terramate list"
      .ok (if changed then cmd ++ " --changed" else cmd)
    | .list_changed => .ok "terramate list --changed"
    | .run =>
      if !truthy command then
        .error "command parameter is required for 'run' operation"
      else
        let cmd := "terramate run"
        let cmd := if changed then cmd ++ " --changed" else cmd
        let cmd := if parallel > 1 then cmd ++ " --parallel " ++ toString parallel else cmd
        .ok (cmd ++ " -- " ++ command.getD "")
    | .run_changed =>
      if !truthy command then
        .error "command parameter is required for 'run_changed' operation"
      else
        let cmd := "terramate run --changed"
        let cmd := if parallel > 1 then cmd ++ " --parallel " ++ toString parallel else cmd
        .ok (cmd ++ " -- " ++ command.getD "")
    | .generate =>
      let cmd := "terramate generate"
      .ok (if changed then cmd ++ " --changed" else cmd)
    | .fmt =>
      let cmd := "terramate fmt"
      .ok (if check then cmd ++ " --check" else cmd)
  match build with
  | .error e => (.error e, [])
  | .ok cmd =>
    let timeout := if pyStartsWith operation.name "run" then 300 else 60
    (.ok (format_command_result (exec cmd timeout)), [cmd])

/-- A successful sample executor result, used by the concrete witnesses. -/
def sampleSuccess (c : String) : CommandResult :=
  { success := true, return_code := 0, stdout := "", stderr := "",
    command := c, cwd := none, error := none }

/-- A failed (nonzero-exit) sample executor result, used by the concrete
witnesses. -/
def sampleFailure (c : String) : CommandResult :=
  { success := false, return_code := 1, stdout := "", stderr := "exit 1",
    command := c, cwd := none, error := none }

/-- C2: for every `CommandResult` returned by `run_command`, `success` is
true exactly when `return_code` is 0, and a present `error` field forces
`success = false`. -/
theorem c2_success_iff_zero (outcome : ProcOutcome) (command : String)
    (cwd : Option String) (timeout : Nat) :
    ((run_command outcome command cwd timeout).success = true ↔
      (run_command outcome command cwd timeout).return_code = 0) ∧
    ((run_command outcome command cwd timeout).error ≠ none →
      (run_command outcome command cwd timeout).success = false) := by
  unfold run_command run_command_events errorResult
  cases hs : shlex.split command with
  | error e => simp
  | ok args =>
    by_cases hi : invalid_args args
    · simp [hi]
    · cases outcome <;> simp [hi, beq_iff_eq]

/-- C2 witness: a concrete `run_command` result with the `error` field
present, whose `success` is false by the theorem. -/
theorem c2_witness :
    (run_command (.spawnError "boom") "tool arg" none 60).error ≠ none ∧
    (run_command (.spawnError "boom") "tool arg" none 60).success = false :=
  ⟨by decide, (c2_success_iff_zero (.spawnError "boom") "tool arg" none 60).2 (by decide)⟩

/-- C3: `run_command` is a total function into `CommandResult` (it never
propagates an exception, which is why this embedding needs no error monad),
and on an empty or unparsable command the returned result has
`success = false`, `return_code = -1` and the `error` field set. -/
theorem c3_invalid_command_result (outcome : ProcOutcome) (command : String)
    (cwd : Option String) (timeout : Nat)
    (h : invalid_command_input command = true) :
    (run_command outcome command cwd timeout).success = false ∧
    (run_command outcome command cwd timeout).return_code = -1 ∧
    (run_command outcome command cwd timeout).error.isSome = true := by
  unfold run_command run_command_events
  unfold invalid_command_input at h
  cases hs : shlex.split command with
  | error e => simp [errorResult]
  | ok args =>
    rw [hs] at h
    simp only [] at h
    simp [h, errorResult]

/-- C3 witness: the empty command string is invalid and yields the
uniform failure result. -/
theorem c3_witness :
    invalid_command_input "" = true ∧
    ((run_command (.completed 0 "" "") "" none 60).success = false ∧
     (run_command (.completed 0 "" "") "" none 60).return_code = -1 ∧
     (run_command (.completed 0 "" "") "" none 60).error.isSome = true) :=
  ⟨by decide, c3_invalid_command_result (.completed 0 "" "") "" none 60 (by decide)⟩

/-- C4 counterexample: the claim states the timeout error text is
`"timed out after <n>s"`, but the code raises and stores
`"Command timed out after {timeout} seconds"`: at timeout 60 the stored
error is `"Command timed out after 60 seconds"`, not `"timed out after
60s"`. -/
theorem c4_counterexample :
    (run_command .timedOut "sleep 100" none 60).error
      = some "Command timed out after 60 seconds" ∧
    (run_command .timedOut "sleep 100" none 60).error
      ≠ some "timed out after 60s" := by
  constructor <;> decide

/-- C4 amended: for every parsable command whose child exceeds the timeout,
`run_command` kills the child (the event flag of `run_command_events`) and
returns `success = false`, `return_code = -1` and
`error = "Command timed out after <n> seconds"`, without raising. -/
theorem c4_timeout_result (command : String) (cwd : Option String) (timeout : Nat)
    (h : invalid_command_input command = false) :
    (run_command_events .timedOut command cwd timeout).1.success = false ∧
    (run_command_events .timedOut command cwd timeout).1.return_code = -1 ∧
    (run_command_events .timedOut command cwd timeout).1.error
      = some ("Command timed out after " ++ toString timeout ++ " seconds") ∧
    (run_command_events .timedOut command cwd timeout).2 = true := by
  unfold run_command_events
  unfold invalid_command_input at h
  cases hs : shlex.split command with
  | error e => rw [hs] at h; exact absurd h (by simp)
  | ok args =>
    rw [hs] at h
    simp only [] at h
    simp [h, errorResult]

/-- C4 witness: a concrete timed-out invocation. -/
theorem c4_witness :
    invalid_command_input "sleep 100" = false ∧
    ((run_command_events .timedOut "sleep 100" none 60).1.success = false ∧
     (run_command_events .timedOut "sleep 100" none 60).1.return_code = -1 ∧
     (run_command_events .timedOut "sleep 100" none 60).1.error
       = some ("Command timed out after " ++ toString 60 ++ " seconds") ∧
     (run_command_events .timedOut "sleep 100" none 60).2 = true) :=
  ⟨by decide, c4_timeout_result "sleep 100" none 60 (by decide)⟩

/-- C7: `run` and `run_changed` with an absent or empty `command` parameter
fail with the missing-parameter `ValueError` before any executor call: the
result is the error and the call list is empty. -/
theorem c7_missing_command_param (exec : String → Nat → CommandResult)
    (operation : StackOp) (working_directory : Option String)
    (command : Option String) (changed : Bool) (parallel : Int) (check : Bool)
    (hop : operation = StackOp.run ∨ operation = StackOp.run_changed)
    (hcmd : command = none ∨ command = some "") :
    (terramate_stack_operations exec operation working_directory command
        changed parallel check).1
      = Except.error ("command parameter is required for '"
          ++ operation.name ++ "' operation") ∧
    (terramate_stack_operations exec operation working_directory command
        changed parallel check).2 = [] := by
  rcases hop with h | h <;> subst h <;>
    rcases hcmd with h | h <;> subst h <;> exact ⟨rfl, rfl⟩

/-- C7 witness: the `run` operation with no `command`. -/
theorem c7_witness :
    (terramate_stack_operations (fun c _ => sampleSuccess c) .run none none
        false 1 false).1
      = Except.error ("command parameter is required for '"
          ++ StackOp.run.name ++ "' operation") ∧
    (terramate_stack_operations (fun c _ => sampleSuccess c) .run none none
        false 1 false).2 = [] :=
  c7_missing_command_param (fun c _ => sampleSuccess c) .run none none false 1
    false (Or.inl rfl) (Or.inl rfl)

/-- C10: `list` with `changed = true` and `list_changed` build the same
command string `terramate list --changed`, use the same 60-second timeout,
and return identical results for every executor. -/
theorem c10_list_changed_equiv (exec : String → Nat → CommandResult)
    (working_directory : Option String) (command : Option String)
    (changed : Bool) (parallel : Int) (check : Bool) :
    terramate_stack_operations exec .list working_directory command true
        parallel check
      = terramate_stack_operations exec .list_changed working_directory command
          changed parallel check ∧
    (terramate_stack_operations exec .list working_directory command true
        parallel check).2 = ["terramate list --changed"] ∧
    terramate_stack_operations exec .list working_directory command true
        parallel check
      = (.ok (format_command_result (exec "terramate list --changed" 60)),
         ["terramate list --changed"]) :=
  ⟨rfl, rfl, rfl⟩

/-- The executor used by the concrete witnesses: every call succeeds. -/
def execAllOk : Nat → String → CommandResult :=
  fun _ c => sampleSuccess c

/-- An executor whose `k`-th call exits nonzero and all other calls
succeed. -/
def execFailAt (k : Nat) : Nat → String → CommandResult :=
  fun i c => if i == k then sampleFailure c else sampleSuccess c

/-- Workflow arguments for the concrete witnesses: a plain stack path, all
other arguments left at their defaults. -/
def wfArgs : TriggerArgs := { stack_path := "stacks/app" }

/-- Every workflow invocation hands the executor an initial segment of
`workflow_call_sequence`: the fixed step order, with each later command
issued only after the earlier ones. -/
lemma workflow_calls_initial (exec : Nat → String → CommandResult)
    (a : TriggerArgs) (s : String) :
    (terramate_trigger_workflow exec a s).2 <+: workflow_call_sequence a s := by
  unfold terramate_trigger_workflow workflow_call_sequence
  dsimp only
  repeat' split
  all_goals exact ⟨_, rfl⟩

/-- C1 counterexample: with a status filter containing shell
metacharacters, the trigger command handed to the executor embeds the raw
caller-supplied status text, which differs from what interpolating
`shlex.quote` of the status would produce — so not every caller-supplied
argument is quoted. -/
def c1_args : TriggerArgs :=
  { stack_path := "x", status := some "drifted; touch pwned" }

/-- C1, as stated, is false: the status filter reaches the command string
unquoted (`--status={status}` at line 49 of `workflows.py`). -/
theorem c1_counterexample :
    (terramate_trigger_workflow execAllOk c1_args "ab12cd34").2.head?
      = some "terramate trigger --status=drifted; touch pwned" ∧
    "terramate trigger --status=drifted; touch pwned"
      ≠ "terramate trigger --status=" ++ shlex.quote "drifted; touch pwned" := by
  constructor <;> decide

/-- C1 amended: every command the workflow hands to the executor is an
initial segment of `workflow_call_sequence`, in which the stack path, the
commit message, the PR title and the PR body are each interpolated through
`shlex.quote` (see `trigger_cmd`, `workflow_call_sequence` and `pr_cmd_of`),
while the status filter is interpolated into the trigger command without
quoting. -/
theorem c1_amended_quoting (exec : Nat → String → CommandResult)
    (a : TriggerArgs) (s : String) :
    ((terramate_trigger_workflow exec a s).2 <+: workflow_call_sequence a s) ∧
    (∀ st, a.status = some st → st ≠ "" →
      trigger_cmd a.stack_path a.status a.recursive a.ignore_change
        = "terramate trigger --status=" ++ st
            ++ (if a.recursive then " --recursive" else "")
            ++ (if a.ignore_change then " --ignore-change" else "")) ∧
    (truthy a.status = false →
      trigger_cmd a.stack_path a.status a.recursive a.ignore_change
        = "terramate trigger " ++ shlex.quote a.stack_path
            ++ (if a.recursive then " --recursive" else "")
            ++ (if a.ignore_change then " --ignore-change" else "")) := by
  refine ⟨workflow_calls_initial exec a s, ?_, ?_⟩
  · intro st hst hne
    unfold trigger_cmd
    have htr : truthy a.status = true := by rw [hst]; unfold truthy; simp [hne]
    rw [htr, hst]
    have hlit : "terramate trigger" ++ " --status=" = "terramate trigger --status=" := rfl
    cases hr : a.recursive <;> cases hi : a.ignore_change <;>
      simp [hlit, String.append_assoc, String.append_empty, Option.getD]
  · intro hf
    unfold trigger_cmd
    rw [hf]
    have hlit : "terramate trigger" ++ " " = "terramate trigger " := rfl
    cases hr : a.recursive <;> cases hi : a.ignore_change <;>
      simp [hlit, String.append_assoc, String.append_empty]

/-- C5: when TRIGGER and STATUS_CHECK succeeded and STAGE (`git add .`)
returned an unsuccessful result, the workflow stops after exactly three
executor calls — COMMIT is never executed — and the transcript's last entry
is the STAGE-failure marker. -/
theorem c5_stage_failure_aborts (exec : Nat → String → CommandResult)
    (a : TriggerArgs) (branch_suffix : String)
    (h0 : (exec 0 (trigger_cmd a.stack_path a.status a.recursive a.ignore_change)).success = true)
    (h1 : (exec 1 "git status --porcelain").success = true)
    (h2 : (exec 2 "git add .").success = false) :
    (terramate_trigger_workflow exec a branch_suffix).2
      = [trigger_cmd a.stack_path a.status a.recursive a.ignore_change,
         "git status --porcelain", "git add ."] ∧
    (terramate_trigger_workflow exec a branch_suffix).1.getLast?
      = some "❌ Git add failed." := by
  have ht : terramate_trigger_workflow exec a branch_suffix
      = (["🎯 Step 1: Triggering Terramate stack(s)",
          format_command_result (exec 0 (trigger_cmd a.stack_path a.status a.recursive a.ignore_change)),
          "\n🔍 Step 2: Checking git status",
          format_command_result (exec 1 "git status --porcelain"),
          "\n📁 Step 3: Adding trigger files to git",
          format_command_result (exec 2 "git add ."),
          "❌ Git add failed."],
         [trigger_cmd a.stack_path a.status a.recursive a.ignore_change,
          "git status --porcelain", "git add ."]) := by
    unfold terramate_trigger_workflow
    simp [h0, h1, h2]
  exact ⟨by rw [ht], by rw [ht]; rfl⟩

/-- C5 witness: a concrete invocation whose third executor call fails. -/
theorem c5_witness :
    (terramate_trigger_workflow (execFailAt 2) wfArgs "ab12cd34").2
      = [trigger_cmd wfArgs.stack_path wfArgs.status wfArgs.recursive wfArgs.ignore_change,
         "git status --porcelain", "git add ."] ∧
    (terramate_trigger_workflow (execFailAt 2) wfArgs "ab12cd34").1.getLast?
      = some "❌ Git add failed." :=
  c5_stage_failure_aborts (execFailAt 2) wfArgs "ab12cd34" rfl rfl rfl

/-- C6: with PR creation requested, when BRANCH fails after a successful
COMMIT the workflow attempts neither PUSH nor PR_CREATE (exactly five
executor calls), the transcript contains the branch-failure warning entry,
and the workflow still reports overall completion (degraded success). -/
theorem c6_branch_failure_degraded (exec : Nat → String → CommandResult)
    (a : TriggerArgs) (branch_suffix : String)
    (hpr : a.create_pr = true)
    (h0 : (exec 0 (trigger_cmd a.stack_path a.status a.recursive a.ignore_change)).success = true)
    (h1 : (exec 1 "git status --porcelain").success = true)
    (h2 : (exec 2 "git add .").success = true)
    (h3 : (exec 3 ("git commit -m " ++ shlex.quote
        (commit_message_of a.commit_message a.status a.stack_path))).success = true)
    (h4 : (exec 4 ("git checkout -b " ++ ("terramate-trigger-" ++ branch_suffix))).success
        = false) :
    (terramate_trigger_workflow exec a branch_suffix).2
      = [trigger_cmd a.stack_path a.status a.recursive a.ignore_change,
         "git status --porcelain", "git add .",
         "git commit -m " ++ shlex.quote (commit_message_of a.commit_message a.status a.stack_path),
         "git checkout -b " ++ ("terramate-trigger-" ++ branch_suffix)] ∧
    ("\n❌ Failed to create branch for PR."
      ∈ (terramate_trigger_workflow exec a branch_suffix).1) ∧
    ((terramate_trigger_workflow exec a branch_suffix).1.getLast?
      = some "\n🎉 Terramate trigger workflow completed successfully!") := by
  have ht : terramate_trigger_workflow exec a branch_suffix
      = (["🎯 Step 1: Triggering Terramate stack(s)",
          format_command_result (exec 0 (trigger_cmd a.stack_path a.status a.recursive a.ignore_change)),
          "\n🔍 Step 2: Checking git status",
          format_command_result (exec 1 "git status --porcelain"),
          "\n📁 Step 3: Adding trigger files to git",
          format_command_result (exec 2 "git add ."),
          "\n💾 Step 4: Committing changes with message: '"
            ++ commit_message_of a.commit_message a.status a.stack_path ++ "'",
          format_command_result (exec 3 ("git commit -m " ++ shlex.quote
            (commit_message_of a.commit_message a.status a.stack_path))),
          "\n🚀 Step 5: Creating draft pull request",
          format_command_result (exec 4 ("git checkout -b " ++ ("terramate-trigger-" ++ branch_suffix))),
          "\n❌ Failed to create branch for PR.",
          "\n🎉 Terramate trigger workflow completed successfully!"],
         [trigger_cmd a.stack_path a.status a.recursive a.ignore_change,
          "git status --porcelain", "git add .",
          "git commit -m " ++ shlex.quote (commit_message_of a.commit_message a.status a.stack_path),
          "git checkout -b " ++ ("terramate-trigger-" ++ branch_suffix)]) := by
    unfold terramate_trigger_workflow
    simp [hpr, h0, h1, h2, h3, h4]
  refine ⟨by rw [ht], by rw [ht]; simp, by rw [ht]; rfl⟩

/-- C6 witness: a concrete invocation whose fifth executor call (BRANCH)
fails after a successful COMMIT. -/
theorem c6_witness :
    (terramate_trigger_workflow (execFailAt 4) wfArgs "ab12cd34").2
      = [trigger_cmd wfArgs.stack_path wfArgs.status wfArgs.recursive wfArgs.ignore_change,
         "git status --porcelain", "git add .",
         "git commit -m " ++ shlex.quote
           (commit_message_of wfArgs.commit_message wfArgs.status wfArgs.stack_path),
         "git checkout -b " ++ ("terramate-trigger-" ++ "ab12cd34")] ∧
    ("\n❌ Failed to create branch for PR."
      ∈ (terramate_trigger_workflow (execFailAt 4) wfArgs "ab12cd34").1) ∧
    ((terramate_trigger_workflow (execFailAt 4) wfArgs "ab12cd34").1.getLast?
      = some "\n🎉 Terramate trigger workflow completed successfully!") :=
  c6_branch_failure_degraded (execFailAt 4) wfArgs "ab12cd34" rfl rfl rfl rfl rfl rfl

/-- C8 counterexample: the caller-supplied commit message `""` is not used
verbatim — the truthiness test `if not commit_message` treats it as absent
and derives a message from the stack path instead. -/
theorem c8_counterexample :
    commit_message_of (some "") none "stacks/app" = "chore: trigger stack app" ∧
    commit_message_of (some "") none "stacks/app" ≠ "" := by
  constructor <;> decide

/-- C8 amended: every invocation that reaches COMMIT commits with
`commit_message_of`: a non-empty caller message is used verbatim; an empty
or absent one is replaced by `"chore: trigger stacks with status <status>"`
when a non-empty status filter is supplied, else by
`"chore: trigger stack <name>"` with `<name>` the final path segment of the
stack path (`"stack"` when the path is empty). -/
theorem c8_commit_message_used (exec : Nat → String → CommandResult)
    (a : TriggerArgs) (branch_suffix : String)
    (h0 : (exec 0 (trigger_cmd a.stack_path a.status a.recursive a.ignore_change)).success = true)
    (h1 : (exec 1 "git status --porcelain").success = true)
    (h2 : (exec 2 "git add .").success = true) :
    (terramate_trigger_workflow exec a branch_suffix).2.take 4
      = [trigger_cmd a.stack_path a.status a.recursive a.ignore_change,
         "git status --porcelain", "git add .",
         "git commit -m " ++ shlex.quote (commit_message_of a.commit_message a.status a.stack_path)] ∧
    (∀ m, a.commit_message = some m → m ≠ "" →
       commit_message_of a.commit_message a.status a.stack_path = m) ∧
    (∀ st, truthy a.commit_message = false → a.status = some st → st ≠ "" →
       commit_message_of a.commit_message a.status a.stack_path
         = "chore: trigger stacks with status " ++ st) ∧
    (truthy a.commit_message = false → truthy a.status = false → a.stack_path ≠ "" →
       commit_message_of a.commit_message a.status a.stack_path
         = "chore: trigger stack " ++ path_name a.stack_path) ∧
    (truthy a.commit_message = false → truthy a.status = false → a.stack_path = "" →
       commit_message_of a.commit_message a.status a.stack_path = "chore: trigger stack stack") := by
  refine ⟨?_, ?_, ?_, ?_, ?_⟩
  · unfold terramate_trigger_workflow
    simp only [h0, h1, h2, Bool.not_true, Bool.false_eq_true, if_false]
    try dsimp only
    repeat' split
    all_goals first
      | rfl
      | exact absurd trivial (by assumption)
  · intro m hm hne
    rw [hm]
    unfold commit_message_of truthy
    simp [hne]
  · intro st hcm hst hne
    unfold commit_message_of
    rw [hcm, hst]
    unfold truthy
    simp [hne]
  · intro hcm hst hsp
    unfold commit_message_of
    rw [hcm, hst]
    simp [hsp]
  · intro hcm hst hsp
    unfold commit_message_of
    rw [hcm, hst]
    simp [hsp]

/-- Workflow arguments with a non-empty caller-supplied commit message, for
the C8 witness. -/
def c8_args : TriggerArgs :=
  { stack_path := "stacks/app", commit_message := some "custom message" }

/-- C8 witness: a concrete invocation that reaches COMMIT, whose caller
message is used verbatim in the commit command. -/
theorem c8_witness :
    (terramate_trigger_workflow execAllOk c8_args "ab12cd34").2.take 4
      = [trigger_cmd c8_args.stack_path c8_args.status c8_args.recursive c8_args.ignore_change,
         "git status --porcelain", "git add .",
         "git commit -m " ++ shlex.quote
           (commit_message_of c8_args.commit_message c8_args.status c8_args.stack_path)] ∧
    commit_message_of c8_args.commit_message c8_args.status c8_args.stack_path
      = "custom message" :=
  ⟨(c8_commit_message_used execAllOk c8_args "ab12cd34" rfl rfl rfl).1,
   (c8_commit_message_used execAllOk c8_args "ab12cd34" rfl rfl rfl).2.1
     "custom message" rfl (by decide)⟩

/-- C9 counterexample: `commit_message.replace("chore: ", "")` removes every
occurrence of `"chore: "`, not only a leading token: the derived PR title
for the commit message `"chore: trigger chore: deploy"` is
`"Trigger Deploy"`, while stripping only the leading token and title-casing
would give `"Trigger Chore: Deploy"`. -/
theorem c9_counterexample :
    pr_title_of none "chore: trigger chore: deploy" = "Trigger Deploy" ∧
    pr_title_of none "chore: trigger chore: deploy" ≠ "Trigger Chore: Deploy" := by
  constructor <;> decide

/-- C9 amended: every invocation that reaches PR_CREATE without a truthy
caller-supplied title uses `pr_title_of`, which removes every occurrence of
`"chore: "` from the commit message and title-cases the result; the PR
command handed to the executor is built from that title by `pr_cmd_of`. -/
theorem c9_pr_title_used (exec : Nat → String → CommandResult)
    (a : TriggerArgs) (branch_suffix : String)
    (hpr : a.create_pr = true)
    (h0 : (exec 0 (trigger_cmd a.stack_path a.status a.recursive a.ignore_change)).success = true)
    (h1 : (exec 1 "git status --porcelain").success = true)
    (h2 : (exec 2 "git add .").success = true)
    (h3 : (exec 3 ("git commit -m " ++ shlex.quote
        (commit_message_of a.commit_message a.status a.stack_path))).success = true)
    (h4 : (exec 4 ("git checkout -b " ++ ("terramate-trigger-" ++ branch_suffix))).success = true)
    (h5 : (exec 5 ("git push -u origin " ++ ("terramate-trigger-" ++ branch_suffix))).success = true) :
    (terramate_trigger_workflow exec a branch_suffix).2
      = [trigger_cmd a.stack_path a.status a.recursive a.ignore_change,
         "git status --porcelain", "git add .",
         "git commit -m " ++ shlex.quote (commit_message_of a.commit_message a.status a.stack_path),
         "git checkout -b " ++ ("terramate-trigger-" ++ branch_suffix),
         "git push -u origin " ++ ("terramate-trigger-" ++ branch_suffix),
         pr_cmd_of
           (pr_title_of a.pr_title (commit_message_of a.commit_message a.status a.stack_path))
           (pr_body_of (trigger_cmd a.stack_path a.status a.recursive a.ignore_change))] ∧
    (truthy a.pr_title = false →
       pr_title_of a.pr_title (commit_message_of a.commit_message a.status a.stack_path)
         = pyTitle (pyReplace (commit_message_of a.commit_message a.status a.stack_path)
             "chore: " "")) := by
  constructor
  · unfold terramate_trigger_workflow
    simp only [hpr, h0, h1, h2, h3, h4, h5, Bool.not_true, Bool.false_eq_true, if_false]
    try dsimp only
    repeat' split
    all_goals first
      | rfl
      | exact absurd trivial (by assumption)
  · intro h
    unfold pr_title_of
    rw [h]
    simp

/-- C9 witness: a concrete invocation that reaches PR_CREATE with no
caller-supplied title. -/
theorem c9_witness :
    (terramate_trigger_workflow execAllOk wfArgs "ab12cd34").2
      = [trigger_cmd wfArgs.stack_path wfArgs.status wfArgs.recursive wfArgs.ignore_change,
         "git status --porcelain", "git add .",
         "git commit -m " ++ shlex.quote
           (commit_message_of wfArgs.commit_message wfArgs.status wfArgs.stack_path),
         "git checkout -b " ++ ("terramate-trigger-" ++ "ab12cd34"),
         "git push -u origin " ++ ("terramate-trigger-" ++ "ab12cd34"),
         pr_cmd_of
           (pr_title_of wfArgs.pr_title
             (commit_message_of wfArgs.commit_message wfArgs.status wfArgs.stack_path))
           (pr_body_of (trigger_cmd wfArgs.stack_path wfArgs.status wfArgs.recursive
             wfArgs.ignore_change))] ∧
    pr_title_of wfArgs.pr_title
        (commit_message_of wfArgs.commit_message wfArgs.status wfArgs.stack_path)
      = pyTitle (pyReplace
          (commit_message_of wfArgs.commit_message wfArgs.status wfArgs.stack_path)
          "chore: " "") :=
  ⟨(c9_pr_title_used execAllOk wfArgs "ab12cd34" rfl rfl rfl rfl rfl rfl rfl).1,
   (c9_pr_title_used execAllOk wfArgs "ab12cd34" rfl rfl rfl rfl rfl rfl rfl).2 rfl⟩
